import Mathlib

/-!
Shallow embedding of the secure read-only SQL query gateway
(`backend/apis/sql_api.py`).

Conventions of the embedding:
* Python strings are Lean `String`s; scanning is done over `List Char`
  (`String.data`).  `str.upper()`, `str.lower()` and `str.strip()` are
  implemented structurally over the character list, restricted to the ASCII
  behaviour the queries use.
* Python's `re.search` patterns used by the validator are implemented as
  bespoke decidable scanners with the same semantics (`\b` word boundaries,
  `\s`/`\w` character classes, `.` not matching a newline, `re.findall`
  consuming matches left to right without overlap).
* External collaborators (the `asyncpg` pool, the Redis client, `hashlib.md5`)
  are parameters of the functions that call them: the store is a function
  from (dispatched query, bound values) to rows-or-error, the cache `get`
  outcome is an enumerated input, and the digest is an arbitrary function
  `String → String` (the code applies `md5` to the combined string; every
  property proved here only needs that the digest is a function).
* Real-time fields (`execution_time_ms`, `timestamp`) are wall-clock effects
  and are omitted from the embedded response record.
* All Redis write commands issued by a request are collected in the outcome's
  `writes` field, so that "which keys does a completed request touch" is a
  provable question.
-/

/-- Python `\w` character class restricted to ASCII: `[A-Za-z0-9_]`. -/
def isWordChar (c : Char) : Bool :=
  ('A' ≤ c && c ≤ 'Z') || ('a' ≤ c && c ≤ 'z') || ('0' ≤ c && c ≤ '9') || c = '_'

/-- Python `\s` character class restricted to ASCII. -/
def isSpaceChar (c : Char) : Bool :=
  c = ' ' || c = '\t' || c = '\n' || c = '\r' || c = '\x0b' || c = '\x0c'

/-- Python `str.upper()` restricted to ASCII, per character. -/
def upperChar (c : Char) : Char :=
  if 'a' ≤ c ∧ c ≤ 'z' then Char.ofNat (c.toNat - 32) else c

/-- Python `str.lower()` restricted to ASCII, per character. -/
def lowerChar (c : Char) : Char :=
  if 'A' ≤ c ∧ c ≤ 'Z' then Char.ofNat (c.toNat + 32) else c

/-- Python `str.strip()`: drop leading and trailing whitespace. -/
def stripChars (l : List Char) : List Char :=
  ((l.dropWhile isSpaceChar).reverse.dropWhile isSpaceChar).reverse

/-- `s.upper()` as a character list. -/
def pyUpper (s : String) : List Char := s.data.map upperChar

/-- `s.upper().strip()` as a character list. -/
def pyUpperStrip (s : String) : List Char := stripChars (pyUpper s)

/-- `leadMatch pat text` holds when `pat` is an initial segment of `text`. -/
def leadMatch : List Char → List Char → Bool
  | [], _ => true
  | _ :: _, [] => false
  | p :: ps, c :: cs => p == c && leadMatch ps cs

/-- `containsSub text pat`: `pat` occurs as a contiguous substring of `text`
(`re.search` of a literal pattern). -/
def containsSub : List Char → List Char → Bool
  | [], pat => leadMatch pat []
  | c :: rest, pat => leadMatch pat (c :: rest) || containsSub rest pat

/-- Word-boundary test for the character preceding a candidate match. -/
def boundaryBefore : Option Char → Bool
  | none => true
  | some c => !isWordChar c

/-- Word-boundary test for the text following a candidate match. -/
def boundaryAfter : List Char → Bool
  | [] => true
  | c :: _ => !isWordChar c

/-- Scanner for `re.search(r'\bKW\b', text)`: `kw` occurs in the text with a
non-word character (or the text edge) on both sides.  `prev` is the character
just before the current scan position. -/
def searchWordFrom (kw : List Char) : Option Char → List Char → Bool
  | prev, [] => boundaryBefore prev && leadMatch kw [] && boundaryAfter []
  | prev, c :: rest =>
    (boundaryBefore prev && leadMatch kw (c :: rest) &&
      boundaryAfter ((c :: rest).drop kw.length)) ||
      searchWordFrom kw (some c) rest

/-- `containsWord text kw` is `re.search(rf'\b{kw}\b', text)` as a Bool. -/
def containsWord (text kw : List Char) : Bool :=
  searchWordFrom kw none text

/-- After a `;`, skip `\s*` and test for one of the mutating keywords
(`DROP|DELETE|UPDATE|INSERT`), as in the pattern `;\s*(DROP|DELETE|UPDATE|INSERT)`. -/
def mutKeywordAfterSpaces : List Char → Bool
  | [] => false
  | c :: rest =>
    leadMatch "DROP".data (c :: rest) || leadMatch "DELETE".data (c :: rest) ||
      leadMatch "UPDATE".data (c :: rest) || leadMatch "INSERT".data (c :: rest) ||
      (isSpaceChar c && mutKeywordAfterSpaces rest)

/-- Scanner for `re.search(r';\s*(DROP|DELETE|UPDATE|INSERT)', text)`. -/
def semicolonMutation : List Char → Bool
  | [] => false
  | c :: rest => (c == ';' && mutKeywordAfterSpaces rest) || semicolonMutation rest

/-- Find `kw` in `text` without crossing a newline (Python `.` does not match
`\n`); on success return the text after the match. -/
def seekNoNewline (kw : List Char) : List Char → Option (List Char)
  | [] => if leadMatch kw [] then some [] else none
  | c :: rest =>
    if leadMatch kw (c :: rest) then some ((c :: rest).drop kw.length)
    else if c == '\n' then none
    else seekNoNewline kw rest

/-- Scanner for `re.search(r'UNION.*SELECT.*FROM.*INFORMATION_SCHEMA', text)`:
the four literals in order with no intervening newline. -/
def unionProbe : List Char → Bool
  | [] => false
  | c :: rest =>
    (leadMatch "UNION".data (c :: rest) &&
      (match seekNoNewline "SELECT".data ((c :: rest).drop 5) with
       | none => false
       | some r2 =>
         match seekNoNewline "FROM".data r2 with
         | none => false
         | some r3 => (seekNoNewline "INFORMATION_SCHEMA".data r3).isSome)) ||
      unionProbe rest

/-- Scanner for `re.search(r'\/\*.*\*\/', text)`: `/*` then `*/` later with no
newline between them. -/
def blockCommentHit : List Char → Bool
  | [] => false
  | c :: rest =>
    (leadMatch "/*".data (c :: rest) &&
      (seekNoNewline "*/".data ((c :: rest).drop 2)).isSome) ||
      blockCommentHit rest

/-- After a keyword, skip `\s*` and test for `(`, as in `EXEC\s*\(`. -/
def openParenAfterSpaces : List Char → Bool
  | [] => false
  | c :: rest => c == '(' || (isSpaceChar c && openParenAfterSpaces rest)

/-- Scanner for `re.search(rf'{kw}\s*\(', text)`. -/
def keywordParenCall (kw : List Char) : List Char → Bool
  | [] => false
  | c :: rest =>
    (leadMatch kw (c :: rest) && openParenAfterSpaces ((c :: rest).drop kw.length)) ||
      keywordParenCall kw rest

/-- Greedy `\w*`: split the longest word-character run off the front. -/
def takeWordRun : List Char → List Char × List Char
  | [] => ([], [])
  | c :: rest =>
    if isWordChar c then
      let p := takeWordRun rest
      (c :: p.1, p.2)
    else ([], c :: rest)

/-- `\s+(\w+)` after a `FROM` literal: at least one space, then a greedy
nonempty word; returns the captured word and the remaining text. -/
def spacesThenWord : List Char → Option (List Char × List Char)
  | [] => none
  | c :: rest =>
    if isSpaceChar c then
      match (takeWordRun (rest.dropWhile (fun d => isSpaceChar d))) with
      | ([], _) => none
      | (w, r) => some (w, r)
    else none

/-- `re.findall(r'FROM\s+(\w+)', text)`: scan left to right, a successful match
resumes after its end, a failed `FROM` prefix resumes one character later.
The fuel argument bounds the recursion; `text.length` steps always suffice
because every recursive call consumes at least one character of text. -/
def findFromTablesFuel : Nat → List Char → List (List Char)
  | 0, _ => []
  | _, [] => []
  | fuel + 1, c :: rest =>
    if leadMatch "FROM".data (c :: rest) then
      match spacesThenWord ((c :: rest).drop 4) with
      | some (w, remaining) => w :: findFromTablesFuel fuel remaining
      | none => findFromTablesFuel fuel rest
    else findFromTablesFuel fuel rest

def findFromTables (text : List Char) : List (List Char) :=
  findFromTablesFuel text.length text

namespace SQLAPIConfig

def MAX_QUERY_LENGTH : Nat := 10000
def SLOW_QUERY_THRESHOLD : Nat := 1000
def MAX_ROWS_RETURNED : Nat := 10000
def CACHE_TTL_DEFAULT : Int := 1800

/-- The Python source stores these in a `set`; the embedding keeps the order of
the source literal.  Only the membership of the set matters for every property
proved below (for the one input where the iteration order could matter, a
single keyword matches). -/
def BLOCKED_KEYWORDS : List String :=
  ["DROP", "DELETE", "TRUNCATE", "ALTER", "CREATE", "INSERT",
   "UPDATE", "GRANT", "REVOKE", "VACUUM", "ANALYZE", "COPY",
   "IMPORT", "EXPORT", "BACKUP", "RESTORE"]

def ALLOWED_TABLES : List String :=
  ["users", "companies", "jobs", "candidates", "applications",
   "interviews", "notifications", "ml_models", "predictions",
   "skill_extractions", "training_datasets"]

end SQLAPIConfig

/-- The distinct rejection branches of `validate_sql_security`, in the order
the source checks them (each branch has its own `logger.warning`). -/
inductive RejectReason where
  | blockedKeyword (kw : String)
  | invalidQueryType
  | suspiciousPattern (idx : Nat)
  | tableNotAllowed (t : String)
deriving DecidableEq, Repr

/-- The suspicious-pattern list of `validate_sql_security`, checked in source
order; returns the index of the first pattern that fires.  Patterns 4 and 5
(`xp_cmdshell`, `sp_executesql`) are lowercase literals searched inside the
uppercased query, exactly as in the source. -/
def suspiciousPatternHit (q : List Char) : Option Nat :=
  if semicolonMutation q then some 0
  else if unionProbe q then some 1
  else if blockCommentHit q then some 2
  else if containsSub q "--".data then some 3
  else if containsSub q "xp_cmdshell".data then some 4
  else if containsSub q "sp_executesql".data then some 5
  else if keywordParenCall "EXEC".data q then some 6
  else if keywordParenCall "EXECUTE".data q then some 7
  else none

/-- First blocked keyword (source order) occurring as a whole word. -/
def firstBlockedKeyword (q : List Char) : Option String :=
  SQLAPIConfig.BLOCKED_KEYWORDS.find? (fun kw => containsWord q kw.data)

/-- First table captured by `FROM\s+(\w+)` whose lowercase form is not in the
allow-list. -/
def firstDisallowedTable (q : List Char) : Option (List Char) :=
  (findFromTables q).find?
    (fun t => !(SQLAPIConfig.ALLOWED_TABLES.contains (String.mk (t.map lowerChar))))

/-- `validate_sql_security`, refined to return which ordered check rejects
(`none` = allowed).  The stages mirror the source: blocked keywords, then the
SELECT/WITH prefix, then the suspicious patterns, then the `FROM` table
allow-list; all checks run on `query.upper().strip()`. -/
def validate_verdict (query : String) : Option RejectReason :=
  let qu := pyUpperStrip query
  match firstBlockedKeyword qu with
  | some kw => some (.blockedKeyword kw)
  | none =>
    if !(leadMatch "SELECT".data qu || leadMatch "WITH".data qu) then
      some .invalidQueryType
    else
      match suspiciousPatternHit qu with
      | some i => some (.suspiciousPattern i)
      | none =>
        match firstDisallowedTable qu with
        | some t => some (.tableNotAllowed (String.mk t))
        | none => none

/-- `validate_sql_security(query) -> bool` of the source. -/
def validate_sql_security (query : String) : Bool :=
  (validate_verdict query).isNone

/-! ## Cache key derivation (`generate_query_hash`) -/

/-- `json.dumps(parameters, sort_keys=True)` canonicalizes the mapping by
sorting its keys; the embedding sorts the association list by key. -/
def canonicalParams (p : List (String × String)) : List (String × String) :=
  List.insertionSort (fun a b => a.1 ≤ b.1) p

/-- JSON rendering of a string value (the parameter values exercised here need
no escaping). -/
def jsonStr (s : String) : String := "\"" ++ s ++ "\""

/-- `json.dumps` of the canonicalized mapping, with the default `", "` and
`": "` separators. -/
def jsonDumpsSorted (p : List (String × String)) : String :=
  "\x7b" ++
    String.intercalate ", "
      ((canonicalParams p).map (fun kv => jsonStr kv.1 ++ ": " ++ jsonStr kv.2)) ++
    "\x7d"

/-- `generate_query_hash(query, parameters)`: the source computes
`hashlib.md5(f"{query}:{json.dumps(parameters, sort_keys=True)}".encode()).hexdigest()`;
the digest (an external library function) is a parameter. -/
def generate_query_hash (digest : String → String)
    (query : String) (parameters : List (String × String)) : String :=
  digest (query ++ ":" ++ jsonDumpsSorted parameters)

/-! ## The `/query` endpoint (`execute_query`) -/

/-- A result row: a column-name → value record, as produced by
`dict(row)`. -/
abbrev Row := List (String × String)

structure HttpError where
  status : Nat
  detail : String
deriving DecidableEq, Repr

/-- The embedded `SQLResponse` payload.  `execution_time_ms` and `timestamp`
are wall-clock fields and are omitted. -/
structure SQLResponseData where
  data : List Row
  row_count : Nat
  cached : Bool
  explain_plan : Option String
  query_hash : String
deriving DecidableEq, Repr

/-- Outcome of the `redis_client.get(cache_key)` attempt, as observed by the
`try` block: the client raised (`errorOut`, which also covers a payload that
fails to parse back into a response), returned nothing (`miss`), or returned a
stored response (`hit`). -/
inductive CacheGetResult where
  | errorOut
  | miss
  | hit (payload : SQLResponseData)
deriving DecidableEq, Repr

/-- A `redis_client.setex(key, ttl, payload)` command issued by the request. -/
structure RedisWrite where
  key : String
  ttl : Int
  payload : SQLResponseData
deriving DecidableEq, Repr

/-- The embedded `SQLQuery` request model.  Pydantic trims the query text and
bounds its length before `execute_query` runs; `cache_ttl = none` models an
explicit JSON `null` (an omitted field defaults to `some 1800`). -/
structure SQLQuery where
  query : String
  parameters : List (String × String)
  cache_ttl : Option Int
  explain : Bool
  timeout : Int
deriving DecidableEq, Repr

/-- `sql_query.cache_ttl or SQLAPIConfig.CACHE_TTL_DEFAULT`: Python `or`
replaces both `None` and the falsy `0` with the default. -/
def effectiveTtl : Option Int → Int
  | none => SQLAPIConfig.CACHE_TTL_DEFAULT
  | some v => if v = 0 then SQLAPIConfig.CACHE_TTL_DEFAULT else v

/-- The row-cap injection: `if "LIMIT" not in sql_query.query.upper():` append
`f" LIMIT {SQLAPIConfig.MAX_ROWS_RETURNED}"`.  Note the source tests for the
substring `LIMIT`, not for a row-limiting clause. -/
def limitQuery (query : String) : String :=
  if containsSub (pyUpper query) "LIMIT".data then query
  else query ++ " LIMIT " ++ toString SQLAPIConfig.MAX_ROWS_RETURNED

/-- The positional value tuple passed to `conn.fetch(limited_query,
*sql_query.parameters.values())`: the values in the mapping's insertion
order (not in the sorted-key order used for the cache key). -/
def bindValues (p : List (String × String)) : List String :=
  p.map Prod.snd

/-- Everything observable about one `POST /query` request: the HTTP response
(error status/detail or response payload), the store fetches dispatched
(query text with bound values), and the Redis write commands issued. -/
structure ExecOutcome where
  result : Except HttpError SQLResponseData
  fetches : List (String × List String)
  writes : List RedisWrite
deriving Repr

/-- The `/query` handler `execute_query`, with its collaborators as
parameters: `digest` is `hashlib.md5(...).hexdigest`, `store` is
`conn.fetch` (rows or a raised error message), `explainStore` is the
`conn.fetchval` call for the `EXPLAIN` plan, `cacheGet` is the observed
outcome of the cache read, and `cacheSetFails` tells whether
`redis_client.setex` raises.  The `except` around the cache write only logs,
so `cacheSetFails` cannot influence the outcome; the parameter is kept to
state that independence.  Both fetch failures raise inside one `try` block
that ends in `HTTPException(400, f"Query execution failed: {str(e)}")`. -/
def execute_query (digest : String → String)
    (store : String → List String → Except String (List Row))
    (explainStore : String → List String → Except String String)
    (cacheGet : CacheGetResult) (cacheSetFails : Bool)
    (sql_query : SQLQuery) : ExecOutcome :=
  if validate_sql_security sql_query.query = false then
    ⟨.error ⟨400, "Query not allowed for security reasons"⟩, [], []⟩
  else
    let query_hash := generate_query_hash digest sql_query.query sql_query.parameters
    let cache_key := "sql_query:" ++ query_hash
    match cacheGet with
    | .hit payload => ⟨.ok { payload with cached := true }, [], []⟩
    | .errorOut | .miss =>
      let limited_query := limitQuery sql_query.query
      let vals := bindValues sql_query.parameters
      match store limited_query vals with
      | .error e =>
        ⟨.error ⟨400, "Query execution failed: " ++ e⟩, [(limited_query, vals)], []⟩
      | .ok rows =>
        let explainRes : Except String (Option String) :=
          if sql_query.explain then
            (explainStore ("EXPLAIN (FORMAT JSON) " ++ limited_query) vals).map Option.some
          else .ok none
        match explainRes with
        | .error e =>
          ⟨.error ⟨400, "Query execution failed: " ++ e⟩, [(limited_query, vals)], []⟩
        | .ok explain_plan =>
          let response : SQLResponseData :=
            ⟨rows, rows.length, false, explain_plan, query_hash⟩
          ⟨.ok response, [(limited_query, vals)],
            [⟨cache_key, effectiveTtl sql_query.cache_ttl, response⟩]⟩

/-! ## The `/schema` endpoint (`get_schema_info`) -/

/-- The public-schema catalog state of the external store, as seen by the
four introspection queries: `information_schema.tables` rows as
(table_name, table_type), `information_schema.views` rows as
(view_name, view_definition), `information_schema.routines` rows as
(routine_name, routine_type), and `pg_indexes` rows as
(indexname, tablename, indexdef). -/
structure PgCatalog where
  tables : List (String × String)
  views : List (String × String)
  functions : List (String × String)
  indexes : List (String × String × String)
deriving DecidableEq, Repr

structure SchemaInfoData where
  tables : List (String × String)
  views : List (String × String)
  functions : List (String × String)
  indexes : List (String × String × String)
deriving DecidableEq, Repr

/-- `get_schema_info`: the tables query has `AND table_name = ANY($1)` with
the allow-list and the indexes query has `AND tablename = ANY($1)`, but the
views and functions queries select the whole public schema with no allow-list
condition.  The `ORDER BY` clauses only affect row order and are not
modelled. -/
def get_schema_info (db : PgCatalog) : SchemaInfoData :=
  ⟨db.tables.filter (fun r => SQLAPIConfig.ALLOWED_TABLES.contains r.1),
   db.views,
   db.functions,
   db.indexes.filter (fun r => SQLAPIConfig.ALLOWED_TABLES.contains r.2.1)⟩

/-! ## The `/stats` endpoint (`get_query_stats`) -/

structure QueryStatsData where
  total_queries : Int
  cached_queries : Int
  avg_execution_time : ℚ
  cache_hit_rate : ℚ
deriving DecidableEq, Repr

/-- Python `round(x, 2)` over the embedded rationals.  (CPython rounds
half-to-even on floats; the difference is irrelevant to the properties
proved here, which evaluate it at 0.) -/
def roundTo2 (x : ℚ) : ℚ := (round (x * 100) : ℤ) / 100

/-- `get_query_stats`, reading the three counters from the shared store:
`avg_execution_time = total_execution_time / total_queries if total_queries > 0
else 0`, `cache_hit_rate = (cached_queries / total_queries * 100) if
total_queries > 0 else 0`, both rounded to two decimals. -/
def get_query_stats (total_queries cached_queries : Int)
    (total_execution_time : ℚ) : QueryStatsData :=
  let avg : ℚ := if total_queries > 0 then total_execution_time / (total_queries : ℚ) else 0
  let rate : ℚ :=
    if total_queries > 0 then (cached_queries : ℚ) / (total_queries : ℚ) * 100 else 0
  ⟨total_queries, cached_queries, roundTo2 avg, roundTo2 rate⟩

/-! ## Helper instances and lemmas -/

instance {ε α : Type} [DecidableEq ε] [DecidableEq α] : DecidableEq (Except ε α) :=
  fun a b =>
    match a, b with
    | .error x, .error y =>
      decidable_of_iff (x = y) ⟨fun h => by rw [h], fun h => by injection h⟩
    | .error _, .ok _ => .isFalse (fun h => Except.noConfusion h)
    | .ok _, .error _ => .isFalse (fun h => Except.noConfusion h)
    | .ok x, .ok y =>
      decidable_of_iff (x = y) ⟨fun h => by rw [h], fun h => by injection h⟩

instance : IsTotal (String × String) (fun a b => a.1 ≤ b.1) :=
  ⟨fun a b => le_total a.1 b.1⟩

instance : IsTrans (String × String) (fun a b => a.1 ≤ b.1) :=
  ⟨fun _ _ _ h1 h2 => le_trans h1 h2⟩

instance : IsAntisymm (String × String) (fun a b => a.1 < b.1) :=
  ⟨fun a _ h1 h2 => absurd (lt_trans h1 h2) (lt_irrefl a.1)⟩

/-! ## Concrete inputs used by the counterexamples and witnesses -/

/-- A store whose fetch raises with a raw error message. -/
def c1Store : String → List String → Except String (List Row) :=
  fun _ _ => Except.error "syntax error at or near FOO"

def c1Req : SQLQuery := ⟨"SELECT * FROM users", [], none, false, 30⟩

/-- A store returning 10001 rows for any dispatched query. -/
def c2Store : String → List String → Except String (List Row) :=
  fun _ _ => Except.ok (List.replicate 10001 [])

/-- A validated read-only query that already contains the substring `LIMIT`,
so the gateway appends no cap. -/
def c2Req : SQLQuery := ⟨"SELECT * FROM users LIMIT 999999", [], none, false, 30⟩

def c2wStore : String → List String → Except String (List Row) :=
  fun _ _ => Except.ok []

def c2wReq : SQLQuery := ⟨"SELECT * FROM candidates", [], none, false, 30⟩

def c2wResp : SQLResponseData :=
  ⟨[], 0, false, none, "SELECT * FROM candidates:\x7b\x7d"⟩

/-- A catalog whose public schema holds one allow-listed table, one view and
one function that are not allow-listed. -/
def c3Db : PgCatalog :=
  ⟨[("users", "BASE TABLE")], [("secret_view", "SELECT 1")],
   [("hidden_fn", "FUNCTION")], []⟩

def c4Store : String → List String → Except String (List Row) :=
  fun _ _ => Except.ok [[("ID", "1")]]

def c4Req : SQLQuery := ⟨"SELECT * FROM jobs", [], none, false, 30⟩

/-- A complete cache-miss request that validates, executes and responds. -/
def c4Run : ExecOutcome :=
  execute_query id c4Store (fun _ _ => Except.ok "") CacheGetResult.miss false c4Req

def c6P1 : List (String × String) := [("b", "2"), ("a", "1")]

def c6P2 : List (String × String) := [("a", "1"), ("b", "2")]

def c9P1 : List (String × String) := [("a", "1"), ("b", "2")]

def c9P2 : List (String × String) := [("b", "2"), ("a", "1")]

def c10Req : SQLQuery := ⟨"SELECT 1", [], some 0, false, 30⟩

/-- The single cache write issued by `c10Req` against an empty-result store. -/
def c10Write : RedisWrite :=
  ⟨"sql_query:SELECT 1:\x7b\x7d", 1800, ⟨[], 0, false, none, "SELECT 1:\x7b\x7d"⟩⟩

/-! ## Helper lemmas -/

/-- Sorting an association list with pairwise-distinct keys by key is
insensitive to the input order: two permutations of the same bindings
canonicalize identically. -/
theorem canonicalParams_eq_of_perm (p1 p2 : List (String × String))
    (hperm : p1.Perm p2) (hnd : (p1.map Prod.fst).Nodup) :
    canonicalParams p1 = canonicalParams p2 := by
  have h1 : (canonicalParams p1).Perm p1 := by
    unfold canonicalParams
    exact List.perm_insertionSort _ p1
  have h2 : (canonicalParams p2).Perm p2 := by
    unfold canonicalParams
    exact List.perm_insertionSort _ p2
  have hp : (canonicalParams p1).Perm (canonicalParams p2) :=
    h1.trans (hperm.trans h2.symm)
  have hs1 : List.Sorted (fun a b : String × String => a.1 ≤ b.1) (canonicalParams p1) := by
    unfold canonicalParams
    exact List.sorted_insertionSort _ p1
  have hs2 : List.Sorted (fun a b : String × String => a.1 ≤ b.1) (canonicalParams p2) := by
    unfold canonicalParams
    exact List.sorted_insertionSort _ p2
  have hnd1 : ((canonicalParams p1).map Prod.fst).Nodup :=
    ((h1.map Prod.fst).nodup_iff).mpr hnd
  have hnd2 : ((canonicalParams p2).map Prod.fst).Nodup :=
    ((h2.map Prod.fst).nodup_iff).mpr (((hperm.map Prod.fst).nodup_iff).mp hnd)
  have hne1 : (canonicalParams p1).Pairwise (fun a b => a.1 ≠ b.1) := by
    have := hnd1
    rwa [List.Nodup, List.pairwise_map] at this
  have hne2 : (canonicalParams p2).Pairwise (fun a b => a.1 ≠ b.1) := by
    have := hnd2
    rwa [List.Nodup, List.pairwise_map] at this
  have hlt1 : List.Sorted (fun a b : String × String => a.1 < b.1) (canonicalParams p1) :=
    (hs1.and hne1).imp (fun h => lt_of_le_of_ne h.1 h.2)
  have hlt2 : List.Sorted (fun a b : String × String => a.1 < b.1) (canonicalParams p2) :=
    (hs2.and hne2).imp (fun h => lt_of_le_of_ne h.1 h.2)
  exact List.eq_of_perm_of_sorted hp hlt1 hlt2

/-- Reordering the bindings of a duplicate-free parameter mapping does not
change the derived cache key. -/
theorem generate_query_hash_eq_of_perm (digest : String → String) (q : String)
    (p1 p2 : List (String × String)) (hperm : p1.Perm p2)
    (hnd : (p1.map Prod.fst).Nodup) :
    generate_query_hash digest q p1 = generate_query_hash digest q p2 := by
  unfold generate_query_hash jsonDumpsSorted
  rw [canonicalParams_eq_of_perm p1 p2 hperm hnd]

/-- `effectiveTtl` never yields 0: Python `or` has already replaced the falsy
`0` with the default. -/
theorem effectiveTtl_ne_zero (t : Option Int) : effectiveTtl t ≠ 0 := by
  rcases t with _ | v
  · decide
  · by_cases hv : v = 0 <;> simp [effectiveTtl, hv, SQLAPIConfig.CACHE_TTL_DEFAULT]

/-- Every Redis write a request issues is the one cache `setex`: its key is
the derived cache key and its TTL is the effective TTL.  In particular no
write touches any `sql_stats:` counter. -/
theorem mem_writes_eq (digest : String → String)
    (store : String → List String → Except String (List Row))
    (es : String → List String → Except String String)
    (cg : CacheGetResult) (b : Bool) (q : SQLQuery) :
    ∀ w ∈ (execute_query digest store es cg b q).writes,
      w.key = "sql_query:" ++ generate_query_hash digest q.query q.parameters ∧
      w.ttl = effectiveTtl q.cache_ttl := by
  intro w hw
  by_cases hv : validate_sql_security q.query = false
  · simp [execute_query, hv] at hw
  · rcases cg with _ | _ | payload
    · simp only [execute_query, hv, if_false] at hw
      rcases hst : store (limitQuery q.query) (bindValues q.parameters) with e | rows
      · simp [hst] at hw
      · simp only [hst] at hw
        rcases hex : (if q.explain then
            (es ("EXPLAIN (FORMAT JSON) " ++ limitQuery q.query)
              (bindValues q.parameters)).map Option.some
          else Except.ok none) with e2 | ep
        · simp [hex] at hw
        · simp only [hex] at hw
          simp at hw
          subst hw
          exact ⟨rfl, rfl⟩
    · simp only [execute_query, hv, if_false] at hw
      rcases hst : store (limitQuery q.query) (bindValues q.parameters) with e | rows
      · simp [hst] at hw
      · simp only [hst] at hw
        rcases hex : (if q.explain then
            (es ("EXPLAIN (FORMAT JSON) " ++ limitQuery q.query)
              (bindValues q.parameters)).map Option.some
          else Except.ok none) with e2 | ep
        · simp [hex] at hw
        · simp only [hex] at hw
          simp at hw
          subst hw
          exact ⟨rfl, rfl⟩
    · simp [execute_query, hv] at hw

/-- On a validated cache miss without an explain request, the response is the
store's rows with `row_count` equal to their number and the derived hash. -/
theorem result_on_success (digest : String → String)
    (store : String → List String → Except String (List Row))
    (es : String → List String → Except String String) (b : Bool)
    (q : SQLQuery) (rows : List Row)
    (hv : validate_sql_security q.query = true)
    (hstore : store (limitQuery q.query) (bindValues q.parameters) = Except.ok rows)
    (hexp : q.explain = false) :
    (execute_query digest store es CacheGetResult.miss b q).result =
      Except.ok ⟨rows, rows.length, false, none,
        generate_query_hash digest q.query q.parameters⟩ := by
  simp [execute_query, hv, hstore, hexp]

/-! ## Claim theorems -/

/-- C1 (counterexample): for the request `SELECT * FROM users` against a store
that fails with `syntax error at or near FOO`, the gateway responds with
status 400 (not the claimed 500) and its user-visible message contains the
raw store error text verbatim, so the claimed sanitization does not hold. -/
theorem c1_counterexample :
    (execute_query id c1Store (fun _ _ => Except.ok "") CacheGetResult.miss
        false c1Req).result =
      Except.error ⟨400, "Query execution failed: syntax error at or near FOO"⟩ ∧
    (400 : Nat) ≠ 500 ∧
    containsSub "Query execution failed: syntax error at or near FOO".data
      "syntax error at or near FOO".data = true :=
  ⟨rfl, by decide, by decide⟩

/-- C1 (amended): for every validated query whose execution against the store
fails, the gateway responds with status 400 whose message is the fixed text
`Query execution failed: ` followed by the raw store error text — the raw
error is embedded, not sanitized. -/
theorem c1_amended (digest : String → String)
    (store : String → List String → Except String (List Row))
    (es : String → List String → Except String String) (b : Bool)
    (cg : CacheGetResult) (q : SQLQuery) (e : String)
    (hval : validate_sql_security q.query = true)
    (hcg : cg = CacheGetResult.errorOut ∨ cg = CacheGetResult.miss)
    (hstore : store (limitQuery q.query) (bindValues q.parameters) = Except.error e) :
    (execute_query digest store es cg b q).result =
      Except.error ⟨400, "Query execution failed: " ++ e⟩ := by
  rcases hcg with rfl | rfl <;> simp [execute_query, hval, hstore]

/-- C1 (witness): the amended statement applied to the concrete failing
request. -/
theorem c1_witness :
    validate_sql_security c1Req.query = true ∧
    (execute_query id c1Store (fun _ _ => Except.ok "") CacheGetResult.errorOut
        false c1Req).result =
      Except.error ⟨400, "Query execution failed: " ++ "syntax error at or near FOO"⟩ :=
  ⟨by decide,
    c1_amended id c1Store (fun _ _ => Except.ok "") false CacheGetResult.errorOut
      c1Req "syntax error at or near FOO" (by decide) (Or.inl rfl) rfl⟩

/-- C2 (counterexample): the cap-injection test is a substring test on
`LIMIT`: the validated query `SELECT * FROM users LIMIT 999999` already
contains the substring, no cap is appended, and a store honouring its own
`LIMIT 999999` clause can return 10001 rows, so the returned `row_count`
exceeds the configured maximum of 10000. -/
theorem c2_counterexample :
    (execute_query id c2Store (fun _ _ => Except.ok "") CacheGetResult.miss
        false c2Req).result =
      Except.ok ⟨List.replicate 10001 [], 10001, false, none,
        "SELECT * FROM users LIMIT 999999:\x7b\x7d"⟩ ∧
    10001 > SQLAPIConfig.MAX_ROWS_RETURNED := by
  refine ⟨?_, by decide⟩
  have h := result_on_success id c2Store (fun _ _ => Except.ok "") false c2Req
    (List.replicate 10001 []) (by decide) rfl rfl
  have hlen : (List.replicate 10001 ([] : Row)).length = 10001 :=
    List.length_replicate _ _
  have hhash : generate_query_hash id c2Req.query c2Req.parameters =
      "SELECT * FROM users LIMIT 999999:\x7b\x7d" := by decide
  rw [h, hlen, hhash]

/-- C2 (amended): if the uppercased query text does not contain the substring
`LIMIT`, then ` LIMIT 10000` is appended before dispatch, and the returned
`row_count` is bounded by the configured maximum whenever the store returns at
most that many rows for the dispatched (capped) query.  A query that already
contains the substring is dispatched unchanged and its row count is whatever
the store returns. -/
theorem c2_amended (digest : String → String)
    (store : String → List String → Except String (List Row))
    (es : String → List String → Except String String) (b : Bool)
    (q : SQLQuery) (rows : List Row) (r : SQLResponseData)
    (hnl : containsSub (pyUpper q.query) "LIMIT".data = false)
    (hstore : store (limitQuery q.query) (bindValues q.parameters) = Except.ok rows)
    (hlen : rows.length ≤ SQLAPIConfig.MAX_ROWS_RETURNED)
    (hres : (execute_query digest store es CacheGetResult.miss b q).result = Except.ok r) :
    limitQuery q.query = q.query ++ " LIMIT 10000" ∧
    r.row_count ≤ SQLAPIConfig.MAX_ROWS_RETURNED := by
  constructor
  · unfold limitQuery
    rw [hnl]
    simp only [Bool.false_eq_true, if_false]
    rw [String.append_assoc]
    congr 1
  · by_cases hv : validate_sql_security q.query = false
    · simp [execute_query, hv] at hres
    · simp only [execute_query, hv, if_false] at hres
      rw [hstore] at hres
      rcases hexp : (if q.explain then
          (es ("EXPLAIN (FORMAT JSON) " ++ limitQuery q.query)
            (bindValues q.parameters)).map Option.some
        else Except.ok none) with e2 | ep
      · simp [hexp] at hres
      · simp only [hexp] at hres
        simp at hres
        subst hres
        exact hlen

/-- C2 (witness): the amended statement applied to a concrete request without
a `LIMIT` substring and a store returning no rows. -/
theorem c2_witness :
    containsSub (pyUpper c2wReq.query) "LIMIT".data = false ∧
    limitQuery c2wReq.query = c2wReq.query ++ " LIMIT 10000" ∧
    c2wResp.row_count ≤ SQLAPIConfig.MAX_ROWS_RETURNED := by
  have h := c2_amended id c2wStore (fun _ _ => Except.ok "") false c2wReq [] c2wResp
    (by decide) rfl (by decide) rfl
  exact ⟨by decide, h.1, h.2⟩

/-- C3 (counterexample): the views listing is not filtered: a view named
`secret_view`, absent from the allow-list, appears in the returned
SchemaInfo. -/
theorem c3_counterexample :
    ("secret_view", "SELECT 1") ∈ (get_schema_info c3Db).views ∧
    ¬(("secret_view" : String) ∈ SQLAPIConfig.ALLOWED_TABLES) := by
  constructor
  · decide
  · decide

/-- C3 (amended): only the tables and indexes listings are filtered to the
allow-list; the views and functions listings are returned for the whole
public schema unfiltered. -/
theorem c3_amended (db : PgCatalog) :
    (∀ r ∈ (get_schema_info db).tables, r.1 ∈ SQLAPIConfig.ALLOWED_TABLES) ∧
    (get_schema_info db).views = db.views ∧
    (get_schema_info db).functions = db.functions ∧
    (∀ r ∈ (get_schema_info db).indexes, r.2.1 ∈ SQLAPIConfig.ALLOWED_TABLES) := by
  refine ⟨?_, rfl, rfl, ?_⟩
  · intro r hr
    simp only [get_schema_info, List.mem_filter] at hr
    simpa using hr.2
  · intro r hr
    simp only [get_schema_info, List.mem_filter] at hr
    simpa using hr.2

/-- C3 (witness): the amended statement applied to the concrete catalog, at an
allow-listed table that survives the filter. -/
theorem c3_witness :
    ("users", "BASE TABLE") ∈ (get_schema_info c3Db).tables ∧
    ("users" : String) ∈ SQLAPIConfig.ALLOWED_TABLES :=
  ⟨by decide, (c3_amended c3Db).1 ("users", "BASE TABLE") (by decide)⟩

/-- C4 (counterexample): a validated cache-miss request that completes
successfully issues exactly one Redis write — the cache `setex` — and touches
none of the three `sql_stats:` counters, so `total_queries` is not
incremented (the execution path never reports to the stats store). -/
theorem c4_counterexample :
    c4Run.result =
      Except.ok ⟨[[("ID", "1")]], 1, false, none, "SELECT * FROM jobs:\x7b\x7d"⟩ ∧
    c4Run.writes.map RedisWrite.key = ["sql_query:SELECT * FROM jobs:\x7b\x7d"] ∧
    ¬(("sql_stats:total_queries" : String) ∈ c4Run.writes.map RedisWrite.key) ∧
    ¬(("sql_stats:cached_queries" : String) ∈ c4Run.writes.map RedisWrite.key) ∧
    ¬(("sql_stats:total_execution_time" : String) ∈ c4Run.writes.map RedisWrite.key) :=
  ⟨rfl, rfl, by decide, by decide, by decide⟩

/-- C4 (amended): the execution path never updates the stats counters: every
Redis write issued by any request is the cache write, whose key is the derived
`sql_query:`-prefixed cache key, so the three `sql_stats:` counters read by
`/stats` are left unchanged by every request. -/
theorem c4_amended (digest : String → String)
    (store : String → List String → Except String (List Row))
    (es : String → List String → Except String String)
    (cg : CacheGetResult) (b : Bool) (q : SQLQuery) :
    ∀ w ∈ (execute_query digest store es cg b q).writes,
      w.key = "sql_query:" ++ generate_query_hash digest q.query q.parameters :=
  fun w hw => (mem_writes_eq digest store es cg b q w hw).1

/-- C4 (witness): the amended statement applied to the concrete completed
request and its single write. -/
theorem c4_witness :
    (⟨"sql_query:SELECT * FROM jobs:\x7b\x7d", 1800,
        ⟨[[("ID", "1")]], 1, false, none, "SELECT * FROM jobs:\x7b\x7d"⟩⟩ : RedisWrite).key =
      "sql_query:" ++ generate_query_hash id c4Req.query c4Req.parameters :=
  c4_amended id c4Store (fun _ _ => Except.ok "") CacheGetResult.miss false c4Req
    _ (by decide)

/-- C5: cache failures are never fatal: a request observing a failed cache
read behaves exactly as one observing a miss, and the outcome is independent
of whether the cache write fails — the failed read proceeds to execution and
the failed write leaves the already-computed response unchanged. -/
theorem c5_cache_failures_nonfatal (digest : String → String)
    (store : String → List String → Except String (List Row))
    (es : String → List String → Except String String)
    (b1 b2 : Bool) (q : SQLQuery) :
    execute_query digest store es CacheGetResult.errorOut b1 q =
      execute_query digest store es CacheGetResult.miss b2 q := rfl

/-- C6: the derived cache key (also surfaced as `query_hash`) is insensitive
to the insertion order of the parameter mapping: permuting a duplicate-free
binding list leaves `generate_query_hash` unchanged, for every digest and
query text. -/
theorem c6_cache_key_order_insensitive (digest : String → String) (q : String)
    (p1 p2 : List (String × String)) (hperm : p1.Perm p2)
    (hnd : (p1.map Prod.fst).Nodup) :
    generate_query_hash digest q p1 = generate_query_hash digest q p2 :=
  generate_query_hash_eq_of_perm digest q p1 p2 hperm hnd

/-- C6 (witness): the statement applied to two concrete mappings with the same
bindings in different order. -/
theorem c6_witness :
    c6P1.Perm c6P2 ∧ (c6P1.map Prod.fst).Nodup ∧
    generate_query_hash id "SELECT 1" c6P1 = generate_query_hash id "SELECT 1" c6P2 :=
  ⟨by decide, by decide,
    c6_cache_key_order_insensitive id "SELECT 1" c6P1 c6P2 (by decide) (by decide)⟩

/-- C7 (counterexample): `UPDATE users SET x=1` is rejected by the
blocked-keyword check, not by the SELECT/WITH prefix check the claim names. -/
theorem c7_counterexample :
    validate_verdict "UPDATE users SET x=1" ≠ some RejectReason.invalidQueryType := by
  decide

/-- C7 (amended): `UPDATE users SET x=1` is rejected, and under the ordered
first-match-wins rule sequence the rule that rejects it is the blocked-keyword
check (rule 1, citing `UPDATE`), which runs before the SELECT/WITH prefix
check ever fires. -/
theorem c7_amended :
    validate_sql_security "UPDATE users SET x=1" = false ∧
    validate_verdict "UPDATE users SET x=1" =
      some (RejectReason.blockedKeyword "UPDATE") := by
  constructor
  · decide
  · decide

/-- C8: when `total_queries` is 0 both derived statistics are defined as 0 —
the snapshot takes the guard branch and performs no division. -/
theorem c8_zero_total_no_division (cached : Int) (t : ℚ) :
    (get_query_stats 0 cached t).avg_execution_time = 0 ∧
    (get_query_stats 0 cached t).cache_hit_rate = 0 := by
  norm_num [get_query_stats, roundTo2]

/-- C9: execution binds parameter values positionally in insertion order
(`parameters.values()`), not in the canonicalized sorted-key order of the
cache key: two duplicate-free mappings with the same bindings in different
insertion order derive the same cache key yet pass different value tuples to
the store whenever their insertion-order value sequences differ. -/
theorem c9_positional_binding (digest : String → String) (q : String)
    (p1 p2 : List (String × String)) (hperm : p1.Perm p2)
    (hnd : (p1.map Prod.fst).Nodup)
    (hvals : p1.map Prod.snd ≠ p2.map Prod.snd) :
    generate_query_hash digest q p1 = generate_query_hash digest q p2 ∧
    bindValues p1 ≠ bindValues p2 :=
  ⟨generate_query_hash_eq_of_perm digest q p1 p2 hperm hnd,
    by simpa [bindValues] using hvals⟩

/-- C9 (witness): the statement applied to two concrete mappings whose
insertion-order value sequences differ. -/
theorem c9_witness :
    c9P1.Perm c9P2 ∧ (c9P1.map Prod.fst).Nodup ∧
    c9P1.map Prod.snd ≠ c9P2.map Prod.snd ∧
    (generate_query_hash id "SELECT 1" c9P1 = generate_query_hash id "SELECT 1" c9P2 ∧
      bindValues c9P1 ≠ bindValues c9P2) :=
  ⟨by decide, by decide, by decide,
    c9_positional_binding id "SELECT 1" c9P1 c9P2 (by decide) (by decide) (by decide)⟩

/-- C10: when the request's `cache_ttl` is an explicit 0 (or an explicit
null), every cache write issued uses the default TTL of 1800 seconds; and for
every request whatsoever no cache write ever carries TTL 0 (Python `or`
replaces the falsy 0 before `setex` is called). -/
theorem c10_zero_ttl_defaulted (digest : String → String)
    (store : String → List String → Except String (List Row))
    (es : String → List String → Except String String)
    (cg : CacheGetResult) (b : Bool) (q : SQLQuery)
    (h : q.cache_ttl = none ∨ q.cache_ttl = some 0) :
    (∀ w ∈ (execute_query digest store es cg b q).writes,
      w.ttl = SQLAPIConfig.CACHE_TTL_DEFAULT) ∧
    ∀ (q2 : SQLQuery), ∀ w ∈ (execute_query digest store es cg b q2).writes,
      w.ttl ≠ 0 := by
  constructor
  · intro w hw
    have hww := (mem_writes_eq digest store es cg b q w hw).2
    rcases h with h0 | h0 <;> rw [hww, h0] <;> simp [effectiveTtl]
  · intro q2 w hw
    rw [(mem_writes_eq digest store es cg b q2 w hw).2]
    exact effectiveTtl_ne_zero q2.cache_ttl

/-- C10 (witness): the statement applied to a concrete request with an
explicit `cache_ttl` of 0, whose single cache write carries TTL 1800. -/
theorem c10_witness :
    (c10Req.cache_ttl = none ∨ c10Req.cache_ttl = some 0) ∧
    c10Write.ttl = SQLAPIConfig.CACHE_TTL_DEFAULT :=
  ⟨Or.inr rfl,
    (c10_zero_ttl_defaulted id (fun _ _ => Except.ok []) (fun _ _ => Except.ok "")
      CacheGetResult.miss false c10Req (Or.inr rfl)).1 c10Write (by decide)⟩
